import Mathlib

/-!
Verification of the codec layer of `sqlalchemy-pydantic-type`.

The embedding follows `src/sqlalchemy_pydantic_type/core.py`:
`BasePydanticType` and `BaseTypeAdapterType` are SQLAlchemy
`TypeDecorator` subclasses that convert between in-memory pydantic
values and JSON-compatible storage primitives on the bind (write) and
result (read) paths.

External collaborators (the pydantic validation library and the
SQLAlchemy dialect machinery) are modelled at their interface
boundary: a model type is a pair of a dump function and a validate
function, and a dialect carries its `type_descriptor` resolution
function.  Python `None` is `Option.none`; a deserializer that can
raise a validation error returns `Except`.

Class-level attribute lookup (`self.__class__.impl`) is made explicit:
every method takes the current class state as an argument, mirroring
that a Python method reads the class attribute at call time, not at
construction time.
-/

/-- JSON-compatible primitive values: the storage-side representation
produced by `model_dump(mode="json")` / `dump_python(mode="json")` and
consumed by `validate_python`. Objects are ordered key/value lists,
matching insertion-ordered Python dicts. -/
inductive Prim where
  | null
  | bool (b : Bool)
  | int (n : Int)
  | str (s : String)
  | arr (xs : List Prim)
  | obj (kvs : List (String × Prim))
deriving Repr

/-- A concrete SQLAlchemy column-type instance (`TypeEngine`), identified
by its rendered name. The `obj_id` field stands for Python object
identity, so that "returned unchanged" and "re-instantiated" are
distinguishable in the model. -/
structure TypeEngine where
  name : String
  obj_id : Nat
deriving DecidableEq, Repr

/-- The class-level storage descriptor `impl`: either an already
constructed `TypeEngine` instance, or a type / factory that
`load_dialect_impl` instantiates with no arguments (the
`impl() if callable(impl) else impl` branch in the source). -/
inductive Impl where
  | inst (t : TypeEngine)
  | factory (f : Unit → TypeEngine)

/-- Resolution of the class-level descriptor performed inside
`load_dialect_impl`: `impl() if callable(impl) else impl`. -/
def Impl.resolve : Impl → TypeEngine
  | .inst t => t
  | .factory f => f ()

/-- A SQLAlchemy dialect, modelled at the interface boundary: the codec
only ever hands a resolved `TypeEngine` to `dialect.type_descriptor`.
The conversion paths receive the dialect but never inspect it. -/
structure Dialect where
  name : String
  type_descriptor : TypeEngine → TypeEngine

/-- The mutable class-level state of a `TypeDecorator` subclass: the
storage descriptor `impl`, readable (and reassignable, as the tests do)
through `self.__class__.impl`. -/
structure TypeDecoratorClass where
  impl : Impl

/-- The pydantic model-type interface consumed by `BasePydanticType`,
at its boundary: `model_dump(mode="json")` on instances and
`validate_python` of the `TypeAdapter` built from the type. `M` is the
model type, `P` the primitive type, `E` the validation-error type. -/
structure PydanticModelType (M P E : Type) where
  model_dump : M → P
  validate_python : P → Except E M

/-- The pydantic `TypeAdapter` interface consumed by both codec
classes: `dump_python(mode="json")` and `validate_python`. -/
structure TypeAdapter (T P E : Type) where
  dump_python : T → P
  validate_python : P → Except E T

/-- Construction `TypeAdapter(self._pydantic_model_type)` performed by
the `type_adapter` cached property of `BasePydanticType`. -/
def TypeAdapter.ofModelType (mt : PydanticModelType M P E) : TypeAdapter M P E :=
  { dump_python := mt.model_dump, validate_python := mt.validate_python }

namespace BasePydanticType

/-- Instance state of `BasePydanticType` after `__init__`: the model
type and the serializer / deserializer pair chosen by
`serializer or self._default_model_serializer` (resp. deserializer). -/
structure Inst (M P E : Type) where
  _pydantic_model_type : PydanticModelType M P E
  _model_serializer : M → P
  _model_deserializer : P → Except E M

/-- Method `_default_model_serializer`: `model.model_dump(mode="json")`. -/
def _default_model_serializer (mt : PydanticModelType M P E) (model : M) : P :=
  mt.model_dump model

/-- Method `_default_model_deserializer`:
`self.type_adapter.validate_python(value)` where `type_adapter` is
`TypeAdapter(self._pydantic_model_type)`. -/
def _default_model_deserializer (mt : PydanticModelType M P E) (value : P) : Except E M :=
  (TypeAdapter.ofModelType mt).validate_python value

/-- Method `__init__`: stores the model type and picks the supplied
serializer / deserializer, falling back to the defaults when `None`. -/
def init (mt : PydanticModelType M P E)
    (serializer : Option (M → P)) (deserializer : Option (P → Except E M)) :
    Inst M P E :=
  { _pydantic_model_type := mt
    _model_serializer := serializer.getD (_default_model_serializer mt)
    _model_deserializer := deserializer.getD (_default_model_deserializer mt) }

/-- Method `load_dialect_impl`: reads `self.__class__.impl` (the class
state at call time), resolves it, and hands it to
`dialect.type_descriptor`. -/
def load_dialect_impl (cls : TypeDecoratorClass) (_self : Inst M P E)
    (dialect : Dialect) : TypeEngine :=
  dialect.type_descriptor cls.impl.resolve

/-- Method `process_bind_param`: `None` short-circuits to `None`,
otherwise the stored serializer is applied. The class state and the
dialect are in scope but unused, as in the source. -/
def process_bind_param (_cls : TypeDecoratorClass) (self : Inst M P E)
    (value : Option M) (_dialect : Dialect) : Option P :=
  match value with
  | none => none
  | some v => some (self._model_serializer v)

/-- Method `process_result_value`: `None` short-circuits to `None`,
otherwise the stored deserializer is applied; a validation error
propagates as the `Except.error` case. -/
def process_result_value (_cls : TypeDecoratorClass) (self : Inst M P E)
    (value : Option P) (_dialect : Dialect) : Except E (Option M) :=
  match value with
  | none => .ok none
  | some v => (self._model_deserializer v).map some

end BasePydanticType

namespace BaseTypeAdapterType

/-- Instance state of `BaseTypeAdapterType` after `__init__`: the
supplied `TypeAdapter` and the serializer / deserializer pair chosen by
`serializer or self._default_serializer` (resp. deserializer). -/
structure Inst (T P E : Type) where
  _type_adapter : TypeAdapter T P E
  _serializer : T → P
  _deserializer : P → Except E T

/-- Method `_default_serializer`:
`self._type_adapter.dump_python(value, mode="json")`. -/
def _default_serializer (ta : TypeAdapter T P E) (value : T) : P :=
  ta.dump_python value

/-- Method `_default_deserializer`:
`self._type_adapter.validate_python(value)`. -/
def _default_deserializer (ta : TypeAdapter T P E) (value : P) : Except E T :=
  ta.validate_python value

/-- Method `__init__`: stores the adapter and picks the supplied
serializer / deserializer, falling back to the defaults when `None`. -/
def init (ta : TypeAdapter T P E)
    (serializer : Option (T → P)) (deserializer : Option (P → Except E T)) :
    Inst T P E :=
  { _type_adapter := ta
    _serializer := serializer.getD (_default_serializer ta)
    _deserializer := deserializer.getD (_default_deserializer ta) }

/-- Property `type_adapter`: returns `self._type_adapter`. -/
def type_adapter (self : Inst T P E) : TypeAdapter T P E :=
  self._type_adapter

/-- Method `load_dialect_impl`: identical to the `BasePydanticType`
one — reads `self.__class__.impl` at call time, resolves it, and hands
it to `dialect.type_descriptor`. -/
def load_dialect_impl (cls : TypeDecoratorClass) (_self : Inst T P E)
    (dialect : Dialect) : TypeEngine :=
  dialect.type_descriptor cls.impl.resolve

/-- Method `process_bind_param`: `None` short-circuits to `None`,
otherwise the stored serializer is applied. -/
def process_bind_param (_cls : TypeDecoratorClass) (self : Inst T P E)
    (value : Option T) (_dialect : Dialect) : Option P :=
  match value with
  | none => none
  | some v => some (self._serializer v)

/-- Method `process_result_value`: `None` short-circuits to `None`,
otherwise the stored deserializer is applied. -/
def process_result_value (_cls : TypeDecoratorClass) (self : Inst T P E)
    (value : Option P) (_dialect : Dialect) : Except E (Option T) :=
  match value with
  | none => .ok none
  | some v => (self._deserializer v).map some

end BaseTypeAdapterType

/-! ## Stateful model of the `type_adapter` cached property

`BasePydanticType.type_adapter` is a `functools.cached_property`: it is
absent from the instance dict after `__init__`, is computed from
`self._pydantic_model_type` on the first access, stored, and every
later access returns the stored object unchanged. -/

namespace BasePydanticType

/-- Instance state together with the `cached_property` slot for
`type_adapter` (the entry `functools.cached_property` keeps in the
instance dict; `none` while not yet computed). -/
structure CachedInst (M P E : Type) where
  base : Inst M P E
  type_adapter_cache : Option (TypeAdapter M P E)

/-- Construction of a fresh instance: `__init__` runs and the cached
property slot is empty (nothing constructs the adapter eagerly). -/
def initCached (mt : PydanticModelType M P E)
    (serializer : Option (M → P)) (deserializer : Option (P → Except E M)) :
    CachedInst M P E :=
  { base := init mt serializer deserializer, type_adapter_cache := none }

/-- Access to the `type_adapter` cached property: on a miss it builds
`TypeAdapter(self._pydantic_model_type)` and stores it; on a hit it
returns the stored object and leaves the state unchanged. -/
def type_adapter_access (s : CachedInst M P E) :
    TypeAdapter M P E × CachedInst M P E :=
  match s.type_adapter_cache with
  | some ta => (ta, s)
  | none =>
    let ta := TypeAdapter.ofModelType s.base._pydantic_model_type
    (ta, { s with type_adapter_cache := some ta })

end BasePydanticType

/-! ## Concrete schema from the test suite

`tests/conftest.py` declares `Flag {name: str, enabled: bool}` and
`UserMeta {flags: list[Flag], login_count: int}`. The pydantic
behaviour of `model_dump(mode="json")` and
`TypeAdapter(UserMeta).validate_python` on these models is embedded
directly (field order follows the declaration order of the model). -/

namespace Conftest

structure Flag where
  name : String
  enabled : Bool
deriving DecidableEq, Repr

structure UserMeta where
  flags : List Flag
  login_count : Int
deriving DecidableEq, Repr

/-- Dump of a `Flag` to its JSON-mode primitive. -/
def Flag.dump (f : Flag) : Prim :=
  .obj [("name", .str f.name), ("enabled", .bool f.enabled)]

/-- Dump of a `UserMeta` to its JSON-mode primitive, fields in
declaration order (`flags`, then `login_count`). -/
def UserMeta.dump (m : UserMeta) : Prim :=
  .obj [("flags", .arr (m.flags.map Flag.dump)), ("login_count", .int m.login_count)]

/-- First value bound to a key in a primitive object. -/
def lookupKey (kvs : List (String × Prim)) (k : String) : Option Prim :=
  match kvs with
  | [] => none
  | (k2, v) :: rest => if k2 = k then some v else lookupKey rest k

/-- Validation of a primitive against the `Flag` model, as
`validate_python` behaves on it: a mapping with a string `name` and a
boolean `enabled`; anything else is a validation error. -/
def Flag.validate : Prim → Except String Flag
  | .obj kvs =>
    match lookupKey kvs "name", lookupKey kvs "enabled" with
    | some (.str s), some (.bool b) => .ok ⟨s, b⟩
    | _, _ => .error "validation error: Flag"
  | _ => .error "validation error: Flag"

/-- Validation of a list of primitives as `list[Flag]`: the first
failing element's error is surfaced. -/
def validateFlagList : List Prim → Except String (List Flag)
  | [] => .ok []
  | p :: ps => do
    let f ← Flag.validate p
    let fs ← validateFlagList ps
    .ok (f :: fs)

/-- Validation of a primitive against the `UserMeta` model: a mapping
with a `flags` list of valid flags and an integer `login_count`. -/
def UserMeta.validate : Prim → Except String UserMeta
  | .obj kvs =>
    match lookupKey kvs "flags", lookupKey kvs "login_count" with
    | some (.arr ps), some (.int n) => (validateFlagList ps).map (fun fs => ⟨fs, n⟩)
    | _, _ => .error "validation error: UserMeta"
  | _ => .error "validation error: UserMeta"

/-- The `UserMeta` model type as seen through the pydantic boundary
interface: `model_dump(mode="json")` and `validate_python`. -/
def UserMetaModelType : PydanticModelType UserMeta Prim String :=
  { model_dump := UserMeta.dump, validate_python := UserMeta.validate }

/-- The `TypeAdapter(UserMeta)` boundary object. -/
def UserMetaAdapter : TypeAdapter UserMeta Prim String :=
  TypeAdapter.ofModelType UserMetaModelType

end Conftest

/-! ## Concrete column types and dialects used by the tests -/

/-- Instantiation of `sqlalchemy.dialects.postgresql.JSONB`. -/
def jsonbEngine : TypeEngine := { name := "postgresql.JSONB", obj_id := 1 }

/-- Instantiation of `sqlalchemy.dialects.mysql.JSON`. -/
def mysqlJsonEngine : TypeEngine := { name := "mysql.JSON", obj_id := 2 }

/-- Instantiation of `sqlalchemy.types.String`. -/
def stringEngine : TypeEngine := { name := "sa.String", obj_id := 3 }

/-- Instantiation of `sqlalchemy.types.JSON`. -/
def jsonEngine : TypeEngine := { name := "sa.JSON", obj_id := 4 }

/-- A dialect whose `type_descriptor` performs no adaptation (the
behaviour of `DefaultDialect` when no colspec override applies). -/
def defaultDialect : Dialect :=
  { name := "default", type_descriptor := fun t => t }

/-! ## UserSettings dataclass schema from the test suite

`tests/conftest.py` also declares the dataclasses
`Permission {name: str, level: int}` and
`UserSettings {permissions: list[Permission], theme: str}`, wrapped by
`TypeAdapter(UserSettings)` for the `BaseTypeAdapterType` tests. -/

namespace Conftest

structure Permission where
  name : String
  level : Int
deriving DecidableEq, Repr

structure UserSettings where
  permissions : List Permission
  theme : String
deriving DecidableEq, Repr

/-- Dump of a `Permission` to its JSON-mode primitive. -/
def Permission.dump (p : Permission) : Prim :=
  .obj [("name", .str p.name), ("level", .int p.level)]

/-- Dump of a `UserSettings` to its JSON-mode primitive, fields in
declaration order (`permissions`, then `theme`). -/
def UserSettings.dump (u : UserSettings) : Prim :=
  .obj [("permissions", .arr (u.permissions.map Permission.dump)), ("theme", .str u.theme)]

/-- Validation of a primitive against the `Permission` dataclass. -/
def Permission.validate : Prim → Except String Permission
  | .obj kvs =>
    match lookupKey kvs "name", lookupKey kvs "level" with
    | some (.str s), some (.int n) => .ok ⟨s, n⟩
    | _, _ => .error "validation error: Permission"
  | _ => .error "validation error: Permission"

/-- Validation of a list of primitives as `list[Permission]`. -/
def validatePermissionList : List Prim → Except String (List Permission)
  | [] => .ok []
  | p :: ps => do
    let x ← Permission.validate p
    let xs ← validatePermissionList ps
    .ok (x :: xs)

/-- Validation of a primitive against the `UserSettings` dataclass. -/
def UserSettings.validate : Prim → Except String UserSettings
  | .obj kvs =>
    match lookupKey kvs "permissions", lookupKey kvs "theme" with
    | some (.arr ps), some (.str t) => (validatePermissionList ps).map (fun xs => ⟨xs, t⟩)
    | _, _ => .error "validation error: UserSettings"
  | _ => .error "validation error: UserSettings"

/-- The `TypeAdapter(UserSettings)` boundary object (the module-level
`user_settings_adapter` of the tests). -/
def UserSettingsAdapter : TypeAdapter UserSettings Prim String :=
  { dump_python := UserSettings.dump, validate_python := UserSettings.validate }

/-- A default-constructed `BasePydanticType` codec over `UserMeta`
(`PydanticJSON(UserMeta)` in the tests, instance state only). -/
def userMetaCodec : BasePydanticType.Inst UserMeta Prim String :=
  BasePydanticType.init UserMetaModelType none none

/-- A default-constructed `BaseTypeAdapterType` codec over the
`UserSettings` adapter (`TypeAdapterJSON(user_settings_adapter)`). -/
def userSettingsCodec : BaseTypeAdapterType.Inst UserSettings Prim String :=
  BaseTypeAdapterType.init UserSettingsAdapter none none

/-- The `UserMeta` instance of the spec scenario:
entries `[("f1", true), ("f2", false)]`, count `42`. -/
def sampleUserMeta : UserMeta :=
  { flags := [⟨"f1", true⟩, ⟨"f2", false⟩], login_count := 42 }

/-- The expected primitive of the spec scenario. -/
def samplePrim : Prim :=
  .obj [("flags", .arr [.obj [("name", .str "f1"), ("enabled", .bool true)],
                        .obj [("name", .str "f2"), ("enabled", .bool false)]]),
        ("login_count", .int 42)]

/-- A sample `UserSettings` value from the tests. -/
def sampleUserSettings : UserSettings :=
  { permissions := [⟨"admin", 10⟩], theme := "dark" }

end Conftest

/-! ## Rendering hook (alembic integration)

The module `sqlalchemy_pydantic_type/alembic.py`, the origin of the
`render_item` hook used by the tests, is not present under `src/`; only its tests and
the spec describe it, so the hook is modelled from the spec here. -/

/-- Result of the rendering hook: either rendered source text, or the
"not handled" sentinel (`False` in alembic's convention) telling the
caller to proceed with its default rendering. -/
inductive RenderResult where
  | rendered (s : String)
  | not_handled
deriving DecidableEq, Repr

/-- A candidate object handed to the rendering hook: either a
recognized codec instance (with its class state, through which the hook
resolves the storage descriptor), or anything else. -/
inductive RenderCandidate (M P E : Type) where
  | codec (cls : TypeDecoratorClass) (self : BasePydanticType.Inst M P E)
  | other (description : String)

/-- The autogeneration context of the migration tool, at its boundary:
the target dialect and the tool's own renderer for plain column types
(the renderer `render_item` recursively delegates to). -/
structure AutogenContext where
  dialect : Dialect
  render_type : TypeEngine → String

/-- Modelled from the spec: `render_item(subject_kind, candidate,
context)` from `sqlalchemy_pydantic_type/alembic.py` (missing from
`src/`). Per the spec, a candidate that is not a recognized codec
instance yields the "not handled" sentinel; a codec candidate has its
storage descriptor resolved for the context's dialect and the same
renderer is invoked recursively on the resolved instance; no other
subject kinds are handled. -/
def render_item (subject_kind : String) (candidate : RenderCandidate M P E)
    (autogen_context : AutogenContext) : RenderResult :=
  if subject_kind = "type" then
    match candidate with
    | .codec cls self =>
      .rendered (autogen_context.render_type
        (BasePydanticType.load_dialect_impl cls self autogen_context.dialect))
    | .other _ => .not_handled
  else .not_handled

/-- Modelled from the spec: the literal strings the external migration
tool's default renderer produces for the concrete column types
exercised by `tests/test_alembic.py`. -/
def alembicRenderType (t : TypeEngine) : String :=
  if t.name = "postgresql.JSONB" then "postgresql.JSONB(astext_type=Text())"
  else if t.name = "mysql.JSON" then "mysql.JSON()"
  else if t.name = "sa.String" then "sa.String()"
  else t.name ++ "()"

/-- The autogeneration context of the alembic tests: a default dialect
and the tool's default type renderer. -/
def alembicContext : AutogenContext :=
  { dialect := defaultDialect, render_type := alembicRenderType }

/-! ## Shared lemmas about the concrete schemas -/

/-- Validation inverts dumping on any `Flag`. -/
theorem Conftest.flag_validate_dump (f : Conftest.Flag) :
    Conftest.Flag.validate f.dump = .ok f := rfl

/-- Validation inverts dumping element-wise on any flag list. -/
theorem Conftest.validateFlagList_dump (fs : List Conftest.Flag) :
    validateFlagList (fs.map Conftest.Flag.dump) = .ok fs := by
  induction fs with
  | nil => rfl
  | cons f fs ih =>
    simp only [List.map_cons, Conftest.validateFlagList, Conftest.flag_validate_dump, ih]
    rfl

/-- Validation inverts dumping on any `UserMeta`: the pydantic
round-trip contract holds for the concrete test schema. -/
theorem Conftest.userMeta_validate_dump (m : Conftest.UserMeta) :
    Conftest.UserMeta.validate m.dump = .ok m := by
  simp [Conftest.UserMeta.dump, Conftest.UserMeta.validate, lookupKey,
    Conftest.validateFlagList_dump, Except.map]

/-- Validation inverts dumping on any `Permission`. -/
theorem Conftest.permission_validate_dump (p : Conftest.Permission) :
    Conftest.Permission.validate p.dump = .ok p := rfl

/-- Validation inverts dumping element-wise on any permission list. -/
theorem Conftest.validatePermissionList_dump (ps : List Conftest.Permission) :
    validatePermissionList (ps.map Conftest.Permission.dump) = .ok ps := by
  induction ps with
  | nil => rfl
  | cons p ps ih =>
    simp only [List.map_cons, Conftest.validatePermissionList, Conftest.permission_validate_dump, ih]
    rfl

/-- Validation inverts dumping on any `UserSettings`. -/
theorem Conftest.userSettings_validate_dump (u : Conftest.UserSettings) :
    Conftest.UserSettings.validate u.dump = .ok u := by
  simp [Conftest.UserSettings.dump, Conftest.UserSettings.validate, lookupKey,
    Conftest.validatePermissionList_dump, Except.map]

/-- Mapping `some` over an `Except` keeps exactly the error case. -/
theorem Except.map_some_eq_error_iff {E A : Type} (x : Except E A) (e : E) :
    x.map some = .error e ↔ x = .error e := by
  cases x <;> simp [Except.map]

/-- Mapping `some` over an `Except` turns exactly `ok m` into `ok (some m)`. -/
theorem Except.map_some_eq_ok_iff {E A : Type} (x : Except E A) (m : A) :
    x.map some = .ok (some m) ↔ x = .ok m := by
  cases x <;> simp [Except.map]

/-! ## Claims -/

/-- C1: for every value accepted by the wrapped schema and every
dialect, decoding the encoding round-trips to an equal value, for
`BasePydanticType` with its default `model_dump` / `validate_python`
pair and for `BaseTypeAdapterType` with its default `dump_python` /
`validate_python` pair. The hypotheses are the pydantic boundary
contract (validation inverts dumping on accepted values); the last two
conjuncts discharge that contract wholesale for the concrete test
schemas, with no hypothesis on the value. -/
theorem C1_round_trip_default {M P E T : Type}
    (mt : PydanticModelType M P E) (ta : TypeAdapter T P E)
    (cls : TypeDecoratorClass) (d : Dialect) (v : M) (w : T)
    (hmt : mt.validate_python (mt.model_dump v) = .ok v)
    (hta : ta.validate_python (ta.dump_python w) = .ok w) :
    (BasePydanticType.process_result_value cls (BasePydanticType.init mt none none)
      (BasePydanticType.process_bind_param cls (BasePydanticType.init mt none none) (some v) d) d
      = .ok (some v))
    ∧ (BaseTypeAdapterType.process_result_value cls (BaseTypeAdapterType.init ta none none)
      (BaseTypeAdapterType.process_bind_param cls (BaseTypeAdapterType.init ta none none) (some w) d) d
      = .ok (some w))
    ∧ (∀ m : Conftest.UserMeta,
      BasePydanticType.process_result_value cls Conftest.userMetaCodec
        (BasePydanticType.process_bind_param cls Conftest.userMetaCodec (some m) d) d
        = .ok (some m))
    ∧ (∀ u : Conftest.UserSettings,
      BaseTypeAdapterType.process_result_value cls Conftest.userSettingsCodec
        (BaseTypeAdapterType.process_bind_param cls Conftest.userSettingsCodec (some u) d) d
        = .ok (some u)) := by
  refine ⟨?_, ?_, ?_, ?_⟩
  · simp [BasePydanticType.process_bind_param, BasePydanticType.process_result_value,
      BasePydanticType.init, BasePydanticType._default_model_serializer,
      BasePydanticType._default_model_deserializer, TypeAdapter.ofModelType, hmt, Except.map]
  · simp [BaseTypeAdapterType.process_bind_param, BaseTypeAdapterType.process_result_value,
      BaseTypeAdapterType.init, BaseTypeAdapterType._default_serializer,
      BaseTypeAdapterType._default_deserializer, hta, Except.map]
  · intro m
    simp [BasePydanticType.process_bind_param, BasePydanticType.process_result_value,
      Conftest.userMetaCodec, BasePydanticType.init, BasePydanticType._default_model_serializer,
      BasePydanticType._default_model_deserializer, TypeAdapter.ofModelType,
      Conftest.UserMetaModelType, Conftest.userMeta_validate_dump, Except.map]
  · intro u
    simp [BaseTypeAdapterType.process_bind_param, BaseTypeAdapterType.process_result_value,
      Conftest.userSettingsCodec, BaseTypeAdapterType.init, BaseTypeAdapterType._default_serializer,
      BaseTypeAdapterType._default_deserializer, Conftest.UserSettingsAdapter,
      Conftest.userSettings_validate_dump, Except.map]

/-- Witness for C1 at the scenario inputs: `sampleUserMeta` through the
model codec and `sampleUserSettings` through the adapter codec, under a
JSON-impl class and the default dialect. -/
theorem C1_round_trip_default_witness :
    (BasePydanticType.process_result_value ⟨Impl.inst jsonEngine⟩
      (BasePydanticType.init Conftest.UserMetaModelType none none)
      (BasePydanticType.process_bind_param ⟨Impl.inst jsonEngine⟩
        (BasePydanticType.init Conftest.UserMetaModelType none none)
        (some Conftest.sampleUserMeta) defaultDialect) defaultDialect
      = .ok (some Conftest.sampleUserMeta))
    ∧ (BaseTypeAdapterType.process_result_value ⟨Impl.inst jsonEngine⟩
      (BaseTypeAdapterType.init Conftest.UserSettingsAdapter none none)
      (BaseTypeAdapterType.process_bind_param ⟨Impl.inst jsonEngine⟩
        (BaseTypeAdapterType.init Conftest.UserSettingsAdapter none none)
        (some Conftest.sampleUserSettings) defaultDialect) defaultDialect
      = .ok (some Conftest.sampleUserSettings)) :=
  ⟨(C1_round_trip_default Conftest.UserMetaModelType Conftest.UserSettingsAdapter
      ⟨Impl.inst jsonEngine⟩ defaultDialect Conftest.sampleUserMeta Conftest.sampleUserSettings
      rfl rfl).1,
   (C1_round_trip_default Conftest.UserMetaModelType Conftest.UserSettingsAdapter
      ⟨Impl.inst jsonEngine⟩ defaultDialect Conftest.sampleUserMeta Conftest.sampleUserSettings
      rfl rfl).2.1⟩

/-- C2: on both classes, `process_bind_param None` and
`process_result_value None` return `None` for every dialect, for every
instance — hence for every stored serializer / deserializer pair,
default or custom — and the result never depends on those functions
(the trailing conjuncts equate the outcome across instances with
arbitrary different function pairs), so they are never invoked. -/
theorem C2_none_identity {M P E T : Type}
    (cls : TypeDecoratorClass) (self self2 : BasePydanticType.Inst M P E)
    (selfA selfA2 : BaseTypeAdapterType.Inst T P E) (d : Dialect) :
    (BasePydanticType.process_bind_param cls self none d = none)
    ∧ (BasePydanticType.process_result_value cls self none d = .ok none)
    ∧ (BaseTypeAdapterType.process_bind_param cls selfA none d = none)
    ∧ (BaseTypeAdapterType.process_result_value cls selfA none d = .ok none)
    ∧ (BasePydanticType.process_bind_param cls self none d
        = BasePydanticType.process_bind_param cls self2 none d)
    ∧ (BasePydanticType.process_result_value cls self none d
        = BasePydanticType.process_result_value cls self2 none d)
    ∧ (BaseTypeAdapterType.process_bind_param cls selfA none d
        = BaseTypeAdapterType.process_bind_param cls selfA2 none d)
    ∧ (BaseTypeAdapterType.process_result_value cls selfA none d
        = BaseTypeAdapterType.process_result_value cls selfA2 none d) :=
  ⟨rfl, rfl, rfl, rfl, rfl, rfl, rfl, rfl⟩

/-- C3: on both classes, under a dialect whose `type_descriptor`
performs no adaptation (the supported-dialect boundary behaviour; the
adaptation machinery itself is outside this codec), an instance-valued
class `impl` is returned by `load_dialect_impl` unchanged, a
factory-valued `impl` is instantiated with no arguments, and two calls
with the same dialect on the same codec return equal results. -/
theorem C3_impl_resolution {M P E T : Type}
    (self : BasePydanticType.Inst M P E) (selfA : BaseTypeAdapterType.Inst T P E)
    (t : TypeEngine) (f : Unit → TypeEngine) (cls : TypeDecoratorClass) (d : Dialect)
    (hd : ∀ u, d.type_descriptor u = u) :
    (BasePydanticType.load_dialect_impl ⟨Impl.inst t⟩ self d = t)
    ∧ (BasePydanticType.load_dialect_impl ⟨Impl.factory f⟩ self d = f ())
    ∧ (BaseTypeAdapterType.load_dialect_impl ⟨Impl.inst t⟩ selfA d = t)
    ∧ (BaseTypeAdapterType.load_dialect_impl ⟨Impl.factory f⟩ selfA d = f ())
    ∧ (BasePydanticType.load_dialect_impl cls self d
        = BasePydanticType.load_dialect_impl cls self d)
    ∧ (BaseTypeAdapterType.load_dialect_impl cls selfA d
        = BaseTypeAdapterType.load_dialect_impl cls selfA d) :=
  ⟨hd t, hd (f ()), hd t, hd (f ()), rfl, rfl⟩

/-- Witness for C3: a JSONB instance impl is returned unchanged, a
MySQL-JSON factory impl is instantiated, under the default dialect. -/
theorem C3_impl_resolution_witness :
    (BasePydanticType.load_dialect_impl ⟨Impl.inst jsonbEngine⟩
      Conftest.userMetaCodec defaultDialect = jsonbEngine)
    ∧ (BasePydanticType.load_dialect_impl ⟨Impl.factory fun _ => mysqlJsonEngine⟩
      Conftest.userMetaCodec defaultDialect = mysqlJsonEngine)
    ∧ (BaseTypeAdapterType.load_dialect_impl ⟨Impl.inst jsonbEngine⟩
      Conftest.userSettingsCodec defaultDialect = jsonbEngine)
    ∧ (BaseTypeAdapterType.load_dialect_impl ⟨Impl.factory fun _ => mysqlJsonEngine⟩
      Conftest.userSettingsCodec defaultDialect = mysqlJsonEngine)
    ∧ (BasePydanticType.load_dialect_impl ⟨Impl.inst stringEngine⟩
      Conftest.userMetaCodec defaultDialect
        = BasePydanticType.load_dialect_impl ⟨Impl.inst stringEngine⟩
          Conftest.userMetaCodec defaultDialect)
    ∧ (BaseTypeAdapterType.load_dialect_impl ⟨Impl.inst stringEngine⟩
      Conftest.userSettingsCodec defaultDialect
        = BaseTypeAdapterType.load_dialect_impl ⟨Impl.inst stringEngine⟩
          Conftest.userSettingsCodec defaultDialect) :=
  C3_impl_resolution Conftest.userMetaCodec Conftest.userSettingsCodec jsonbEngine
    (fun _ => mysqlJsonEngine) ⟨Impl.inst stringEngine⟩ defaultDialect (fun _ => rfl)

/-- C4: on both classes, `process_result_value` on a non-`None`
primitive raises exactly when the stored deserializer raises, and then
surfaces the very same error value, unwrapped and untranslated; a
successful validation is likewise passed through unchanged. -/
theorem C4_error_propagation {M P E T : Type}
    (cls : TypeDecoratorClass) (self : BasePydanticType.Inst M P E)
    (selfA : BaseTypeAdapterType.Inst T P E) (p : P) (d : Dialect) (e : E)
    (m : M) (x : T) :
    (self._model_deserializer p = .error e ↔
      BasePydanticType.process_result_value cls self (some p) d = .error e)
    ∧ (selfA._deserializer p = .error e ↔
      BaseTypeAdapterType.process_result_value cls selfA (some p) d = .error e)
    ∧ (self._model_deserializer p = .ok m ↔
      BasePydanticType.process_result_value cls self (some p) d = .ok (some m))
    ∧ (selfA._deserializer p = .ok x ↔
      BaseTypeAdapterType.process_result_value cls selfA (some p) d = .ok (some x)) :=
  ⟨(Except.map_some_eq_error_iff (self._model_deserializer p) e).symm,
   (Except.map_some_eq_error_iff (selfA._deserializer p) e).symm,
   (Except.map_some_eq_ok_iff (self._model_deserializer p) m).symm,
   (Except.map_some_eq_ok_iff (selfA._deserializer p) x).symm⟩

/-- C5: constructing either class with explicit serializer and
deserializer stores exactly those functions, `process_bind_param`
applies exactly the supplied serializer, `process_result_value` exactly
the supplied deserializer, and the defaults never enter: the stored
state is independent of the schema the defaults would be built from
(the record-update conjuncts swap the underlying schema without
changing any stored function). -/
theorem C5_custom_override {M P E T : Type}
    (mt mt2 : PydanticModelType M P E) (ta ta2 : TypeAdapter T P E)
    (cls : TypeDecoratorClass) (d : Dialect)
    (s : M → P) (ds : P → Except E M) (sA : T → P) (dsA : P → Except E T)
    (v : M) (p : P) (w : T) :
    ((BasePydanticType.init mt (some s) (some ds))._model_serializer = s)
    ∧ ((BasePydanticType.init mt (some s) (some ds))._model_deserializer = ds)
    ∧ (BasePydanticType.process_bind_param cls (BasePydanticType.init mt (some s) (some ds))
        (some v) d = some (s v))
    ∧ (BasePydanticType.process_result_value cls (BasePydanticType.init mt (some s) (some ds))
        (some p) d = (ds p).map some)
    ∧ (BasePydanticType.init mt (some s) (some ds)
        = { BasePydanticType.init mt2 (some s) (some ds) with _pydantic_model_type := mt })
    ∧ ((BaseTypeAdapterType.init ta (some sA) (some dsA))._serializer = sA)
    ∧ ((BaseTypeAdapterType.init ta (some sA) (some dsA))._deserializer = dsA)
    ∧ (BaseTypeAdapterType.process_bind_param cls (BaseTypeAdapterType.init ta (some sA) (some dsA))
        (some w) d = some (sA w))
    ∧ (BaseTypeAdapterType.process_result_value cls (BaseTypeAdapterType.init ta (some sA) (some dsA))
        (some p) d = (dsA p).map some)
    ∧ (BaseTypeAdapterType.init ta (some sA) (some dsA)
        = { BaseTypeAdapterType.init ta2 (some sA) (some dsA) with _type_adapter := ta }) :=
  ⟨rfl, rfl, rfl, rfl, rfl, rfl, rfl, rfl, rfl, rfl⟩

/-- C6: the scenario instance with entries `[("f1", true), ("f2", false)]`
and count `42` default-encodes to exactly the primitive
`{"flags": [{"name": "f1", "enabled": true}, {"name": "f2", "enabled": false}], "login_count": 42}`,
and default-decoding that primitive reproduces an equal instance. -/
theorem C6_scenario_round_trip (cls : TypeDecoratorClass) (d : Dialect) :
    (BasePydanticType.process_bind_param cls Conftest.userMetaCodec
      (some Conftest.sampleUserMeta) d = some Conftest.samplePrim)
    ∧ (BasePydanticType.process_result_value cls Conftest.userMetaCodec
      (some Conftest.samplePrim) d = .ok (some Conftest.sampleUserMeta)) :=
  ⟨rfl, rfl⟩

/-- C7: the rendering hook returns the "not handled" sentinel — not an
exception — for every non-codec candidate (any subject kind); for a
codec candidate under the `"type"` subject kind it resolves the storage
descriptor for the context's dialect and returns exactly the string the
tool's own renderer produces for that resolved concrete type, with the
three literal outputs of the alembic tests as concrete cases. -/
theorem C7_render_item_delegation {M P E : Type}
    (ctx : AutogenContext) (cls : TypeDecoratorClass)
    (self : BasePydanticType.Inst M P E) (kind desc : String) :
    (render_item kind (RenderCandidate.other desc : RenderCandidate M P E) ctx
      = .not_handled)
    ∧ (render_item "type" (RenderCandidate.codec cls self) ctx
      = .rendered (ctx.render_type (BasePydanticType.load_dialect_impl cls self ctx.dialect)))
    ∧ (render_item "type"
      (RenderCandidate.codec ⟨Impl.factory fun _ => jsonbEngine⟩ Conftest.userMetaCodec)
      alembicContext = .rendered "postgresql.JSONB(astext_type=Text())")
    ∧ (render_item "type"
      (RenderCandidate.codec ⟨Impl.factory fun _ => mysqlJsonEngine⟩ Conftest.userMetaCodec)
      alembicContext = .rendered "mysql.JSON()")
    ∧ (render_item "type"
      (RenderCandidate.codec ⟨Impl.inst stringEngine⟩ Conftest.userMetaCodec)
      alembicContext = .rendered "sa.String()") := by
  refine ⟨?_, rfl, rfl, rfl, rfl⟩
  by_cases h : kind = "type" <;> simp [render_item, h]

/-- C8: the `type_adapter` cached property of `BasePydanticType` is
absent right after `__init__` (nothing constructs it eagerly), the
first access builds it from the model type supplied at construction and
stores it, and any access on a state whose cache is filled returns the
identical stored object and leaves the state untouched. -/
theorem C8_type_adapter_cached {M P E : Type}
    (mt : PydanticModelType M P E)
    (so : Option (M → P)) (dso : Option (P → Except E M))
    (s : BasePydanticType.CachedInst M P E) (ta : TypeAdapter M P E)
    (hs : s.type_adapter_cache = some ta) :
    ((BasePydanticType.initCached mt so dso).type_adapter_cache = none)
    ∧ ((BasePydanticType.type_adapter_access (BasePydanticType.initCached mt so dso)).1
        = TypeAdapter.ofModelType mt)
    ∧ ((BasePydanticType.type_adapter_access
        (BasePydanticType.initCached mt so dso)).2.type_adapter_cache
        = some (TypeAdapter.ofModelType mt))
    ∧ (BasePydanticType.type_adapter_access s = (ta, s)) := by
  refine ⟨rfl, rfl, rfl, ?_⟩
  simp [BasePydanticType.type_adapter_access, hs]

/-- State of the `UserMeta` codec after one access to the cached
property (used to witness the hit path of the cache). -/
def Conftest.userMetaCachedOnce : BasePydanticType.CachedInst Conftest.UserMeta Prim String :=
  (BasePydanticType.type_adapter_access
    (BasePydanticType.initCached Conftest.UserMetaModelType none none)).2

/-- Witness for C8 on the `UserMeta` codec: the cache is empty after
construction, the first access builds and stores the adapter, and the
second access returns the stored object with the state unchanged. -/
theorem C8_type_adapter_cached_witness :
    ((BasePydanticType.initCached Conftest.UserMetaModelType none none).type_adapter_cache = none)
    ∧ ((BasePydanticType.type_adapter_access
        (BasePydanticType.initCached Conftest.UserMetaModelType none none)).1
        = TypeAdapter.ofModelType Conftest.UserMetaModelType)
    ∧ ((BasePydanticType.type_adapter_access
        (BasePydanticType.initCached Conftest.UserMetaModelType none none)).2.type_adapter_cache
        = some (TypeAdapter.ofModelType Conftest.UserMetaModelType))
    ∧ (BasePydanticType.type_adapter_access Conftest.userMetaCachedOnce
        = (TypeAdapter.ofModelType Conftest.UserMetaModelType, Conftest.userMetaCachedOnce)) :=
  C8_type_adapter_cached Conftest.UserMetaModelType none none
    Conftest.userMetaCachedOnce (TypeAdapter.ofModelType Conftest.UserMetaModelType) rfl

/-- C9: on both classes, `load_dialect_impl` reads the class-level
`impl` at call time — its result never depends on per-instance state,
and swapping the class state under the same instance changes the result
whenever the resolved descriptors differ through the dialect — while
`process_bind_param` and `process_result_value` are unaffected by any
class-state change. -/
theorem C9_class_level_impl_dynamic {M P E T : Type}
    (cls cls2 : TypeDecoratorClass)
    (self self2 : BasePydanticType.Inst M P E)
    (selfA selfA2 : BaseTypeAdapterType.Inst T P E)
    (d : Dialect) (v : Option M) (p : Option P) (w : Option T)
    (hne : d.type_descriptor cls.impl.resolve ≠ d.type_descriptor cls2.impl.resolve) :
    (BasePydanticType.load_dialect_impl cls self d
      = BasePydanticType.load_dialect_impl cls self2 d)
    ∧ (BaseTypeAdapterType.load_dialect_impl cls selfA d
      = BaseTypeAdapterType.load_dialect_impl cls selfA2 d)
    ∧ (BasePydanticType.load_dialect_impl cls self d
      ≠ BasePydanticType.load_dialect_impl cls2 self d)
    ∧ (BaseTypeAdapterType.load_dialect_impl cls selfA d
      ≠ BaseTypeAdapterType.load_dialect_impl cls2 selfA d)
    ∧ (BasePydanticType.process_bind_param cls self v d
      = BasePydanticType.process_bind_param cls2 self v d)
    ∧ (BasePydanticType.process_result_value cls self p d
      = BasePydanticType.process_result_value cls2 self p d)
    ∧ (BaseTypeAdapterType.process_bind_param cls selfA w d
      = BaseTypeAdapterType.process_bind_param cls2 selfA w d)
    ∧ (BaseTypeAdapterType.process_result_value cls selfA p d
      = BaseTypeAdapterType.process_result_value cls2 selfA p d) :=
  ⟨rfl, rfl, hne, hne, rfl, rfl, rfl, rfl⟩

/-- Witness for C9: reassigning the class `impl` from a JSON instance
to a String instance redirects `load_dialect_impl` of the existing
codecs while their conversion paths are unchanged. -/
theorem C9_class_level_impl_dynamic_witness :
    (BasePydanticType.load_dialect_impl ⟨Impl.inst jsonEngine⟩
      Conftest.userMetaCodec defaultDialect
      = BasePydanticType.load_dialect_impl ⟨Impl.inst jsonEngine⟩
        Conftest.userMetaCodec defaultDialect)
    ∧ (BaseTypeAdapterType.load_dialect_impl ⟨Impl.inst jsonEngine⟩
      Conftest.userSettingsCodec defaultDialect
      = BaseTypeAdapterType.load_dialect_impl ⟨Impl.inst jsonEngine⟩
        Conftest.userSettingsCodec defaultDialect)
    ∧ (BasePydanticType.load_dialect_impl ⟨Impl.inst jsonEngine⟩
      Conftest.userMetaCodec defaultDialect
      ≠ BasePydanticType.load_dialect_impl ⟨Impl.inst stringEngine⟩
        Conftest.userMetaCodec defaultDialect)
    ∧ (BaseTypeAdapterType.load_dialect_impl ⟨Impl.inst jsonEngine⟩
      Conftest.userSettingsCodec defaultDialect
      ≠ BaseTypeAdapterType.load_dialect_impl ⟨Impl.inst stringEngine⟩
        Conftest.userSettingsCodec defaultDialect)
    ∧ (BasePydanticType.process_bind_param ⟨Impl.inst jsonEngine⟩
      Conftest.userMetaCodec (some Conftest.sampleUserMeta) defaultDialect
      = BasePydanticType.process_bind_param ⟨Impl.inst stringEngine⟩
        Conftest.userMetaCodec (some Conftest.sampleUserMeta) defaultDialect)
    ∧ (BasePydanticType.process_result_value ⟨Impl.inst jsonEngine⟩
      Conftest.userMetaCodec (some Conftest.samplePrim) defaultDialect
      = BasePydanticType.process_result_value ⟨Impl.inst stringEngine⟩
        Conftest.userMetaCodec (some Conftest.samplePrim) defaultDialect)
    ∧ (BaseTypeAdapterType.process_bind_param ⟨Impl.inst jsonEngine⟩
      Conftest.userSettingsCodec (some Conftest.sampleUserSettings) defaultDialect
      = BaseTypeAdapterType.process_bind_param ⟨Impl.inst stringEngine⟩
        Conftest.userSettingsCodec (some Conftest.sampleUserSettings) defaultDialect)
    ∧ (BaseTypeAdapterType.process_result_value ⟨Impl.inst jsonEngine⟩
      Conftest.userSettingsCodec (some Conftest.samplePrim) defaultDialect
      = BaseTypeAdapterType.process_result_value ⟨Impl.inst stringEngine⟩
        Conftest.userSettingsCodec (some Conftest.samplePrim) defaultDialect) :=
  C9_class_level_impl_dynamic ⟨Impl.inst jsonEngine⟩ ⟨Impl.inst stringEngine⟩
    Conftest.userMetaCodec Conftest.userMetaCodec
    Conftest.userSettingsCodec Conftest.userSettingsCodec defaultDialect
    (some Conftest.sampleUserMeta) (some Conftest.samplePrim)
    (some Conftest.sampleUserSettings) (by decide)

/-- C10: on both classes, `process_bind_param` and
`process_result_value` are independent of the dialect argument: any two
dialects produce identical results on every input, including `None`. -/
theorem C10_dialect_independence {M P E T : Type}
    (cls : TypeDecoratorClass) (self : BasePydanticType.Inst M P E)
    (selfA : BaseTypeAdapterType.Inst T P E)
    (v : Option M) (p : Option P) (w : Option T) (d1 d2 : Dialect) :
    (BasePydanticType.process_bind_param cls self v d1
      = BasePydanticType.process_bind_param cls self v d2)
    ∧ (BasePydanticType.process_result_value cls self p d1
      = BasePydanticType.process_result_value cls self p d2)
    ∧ (BaseTypeAdapterType.process_bind_param cls selfA w d1
      = BaseTypeAdapterType.process_bind_param cls selfA w d2)
    ∧ (BaseTypeAdapterType.process_result_value cls selfA p d1
      = BaseTypeAdapterType.process_result_value cls selfA p d2) :=
  ⟨rfl, rfl, rfl, rfl⟩
